import Mathlib

/-!
Verification development for the presale backend (payment creation,
payment verification, treasury disbursement, balance reads).

The JavaScript sources are embedded shallowly:
* amounts are rationals (`ℚ`): the arithmetic the code performs
  (`amount * RATE`, `Math.floor(amount * 10 ** decimals)`) is modelled
  exactly; IEEE rounding of JS numbers is outside the embedding;
* every network call (RPC probe, `getAccount`, `getMint`, `sendTransaction`,
  `confirmTransaction`) is a field of an explicit environment record
  `LedgerEnv`, so a run of a handler is a pure function of its inputs and
  that environment;
* a function that can `throw` returns `Except String α`, carrying the
  message the JS `Error` would carry;
* every broadcast of a treasury-signed token transfer is recorded in a
  `List Broadcast` result component, so "how many times the treasury
  disbursed" is the length of that list.
-/

/-! ## bs58 (the `bs58` npm package used for the treasury private key)

`bs58.decode` maps a base-58 string to bytes: it fails on any character
outside the alphabet; otherwise the decoded byte count is the number of
leading `'1'` characters plus the big-endian byte length of the decoded
value.  `Keypair.fromSecretKey` additionally requires exactly 64 bytes. -/

set_option linter.unusedVariables false

deriving instance DecidableEq for Except

def BASE58_ALPHABET : List Char :=
  "123456789ABCDEFGHJKLMNPQRSTUVWXYZabcdefghijkmnopqrstuvwxyz".toList

def base58DigitAux (c : Char) : List Char → Nat → Option Nat
  | [], _ => none
  | a :: rest, i => if a = c then some i else base58DigitAux c rest (i + 1)

def base58Digit (c : Char) : Option Nat :=
  base58DigitAux c BASE58_ALPHABET 0

def bs58ValueAux : List Char → Nat → Option Nat
  | [], acc => some acc
  | c :: cs, acc =>
    match base58Digit c with
    | none => none
    | some d => bs58ValueAux cs (acc * 58 + d)

/-- The numeric value of a base-58 string, `none` when a character is not in
the alphabet (then `bs58.decode` throws). -/
def bs58Value (s : String) : Option Nat :=
  bs58ValueAux s.toList 0

/-- Whether `bs58.decode` succeeds on `s`. -/
def bs58Decodable (s : String) : Bool :=
  (bs58Value s).isSome

def leadingZeroChars : List Char → Nat
  | [] => 0
  | c :: cs => if c = '1' then leadingZeroChars cs + 1 else 0

/-- Big-endian byte length of `n`, computed with structural fuel so that the
kernel can evaluate it on literals. -/
def natByteLengthAux : Nat → Nat → Nat
  | 0, _ => 0
  | fuel + 1, n => if n = 0 then 0 else natByteLengthAux fuel (n / 256) + 1

def natByteLength (n : Nat) : Nat :=
  natByteLengthAux n n

/-- Byte count of `bs58.decode s`, `none` when decoding fails. -/
def bs58DecodedLength (s : String) : Option Nat :=
  (bs58Value s).map fun v => leadingZeroChars s.toList + natByteLength v

/-- `Keypair.fromSecretKey (bs58.decode s)` succeeds exactly when `s` is
valid base 58 and decodes to 64 bytes (`nacl.sign.keyPair.fromSecretKey`
rejects every other length). -/
def isValid64ByteSecretKey (s : String) : Bool :=
  bs58DecodedLength s = some 64

/-! ## tokenService.js : configuration and rates -/

/-- `TOKEN_CONFIG` of tokenService.js, restricted to the values loaded from
the environment.  The payment service (`createPayment`) additionally reads
`TOKEN_CONFIG.PAYMENT_RECEIVER` — the payment-receiver address required by
the startup configuration — so it is a field here. -/
structure TokenConfig where
  cgtMint : String
  treasuryPrivateKey : String
  presaleStart : Int
  presaleEnd : Int
  paymentReceiver : String
deriving DecidableEq

/-- `TOKEN_CONFIG.SOL_TO_CGT_RATE` (hard-coded constant). -/
def SOL_TO_CGT_RATE : ℚ := 7500

/-- `TOKEN_CONFIG.USDT_TO_CGT_RATE` (hard-coded constant). -/
def USDT_TO_CGT_RATE : ℚ := 50

/-- `TOKEN_CONFIG.USDC_TO_CGT_RATE` (hard-coded constant). -/
def USDC_TO_CGT_RATE : ℚ := 50

/-- `TOKEN_CONFIG.DECIMALS` — a configured constant that the transfer paths
never consult (they query the mint instead). -/
def TOKEN_DECIMALS : Nat := 9

def USDT_MINT : String := "Es9vMFrzaCERmJfrF4H2FYD4KCoNkY11McCe8BenwNYB"

def USDC_MINT : String := "EPjFWdd5AufqSSqeM2qN1xzybapC8G4wEGGkZwyTDt1v"

/-- tokenService.js `isPresaleActive`: `now >= PRESALE_START && now <= PRESALE_END`. -/
def isPresaleActive (cfg : TokenConfig) (now : Int) : Bool :=
  decide (cfg.presaleStart ≤ now) && decide (now ≤ cfg.presaleEnd)

/-- JavaScript `String.prototype.toUpperCase` on the ASCII token identifiers
the code switches on. -/
def jsToUpperCase (s : String) : String :=
  String.mk (s.toList.map Char.toUpper)

/-- tokenService.js `calculateCgtAmount`: switch on `tokenType.toUpperCase()`;
SOL pays `amount * SOL_TO_CGT_RATE`, USDT and USDC pay
`amount * USDT_TO_CGT_RATE`, anything else throws. -/
def calculateCgtAmount (amount : ℚ) (tokenType : String) : Except String ℚ :=
  match jsToUpperCase tokenType with
  | "SOL" => .ok (amount * SOL_TO_CGT_RATE)
  | "USDT" => .ok (amount * USDT_TO_CGT_RATE)
  | "USDC" => .ok (amount * USDC_TO_CGT_RATE)
  | _ => .error "Invalid token type"

/-! ## The ledger environment

One record holds the outcome of every external call a request can make.
`verifyPayment` and the token service run against the single configured
connection; `executeSecureCgtTransfer` probes `RPC_ENDPOINTS` first
(`endpointHealth`).  The `actual*` fields are the contents of the payment
transaction as it stands on the ledger: `confirmTransaction` returns only
an error status, so the code can only ever read `execErr` of them. -/
structure LedgerEnv where
  /-- `new PublicKey(s)` succeeds (syntactically valid address). -/
  addrValid : String → Bool
  /-- `getAssociatedTokenAddress mint owner`. -/
  ata : String → String → String
  /-- `getAccount` on an account: `none` when it rejects (missing account or
  RPC failure), `some amt` its token amount. -/
  accountAmount : String → Option Nat
  /-- the account-creation transaction of `ensureTokenAccount` lands. -/
  createAccountOk : Bool
  /-- `getMint(...).decimals`; `none` when `getMint` rejects. -/
  mintDecimals : Option Nat
  /-- `sendTransaction` + `confirmTransaction` of the treasury transfer land. -/
  sendOk : Bool
  /-- signature returned for the treasury transfer. -/
  transferSig : String
  /-- reachability of `RPC_ENDPOINTS`, in configuration order. -/
  endpointHealth : List Bool
  /-- `connection.confirmTransaction(signature)` rejects (network/timeout). -/
  confirmThrows : Bool
  /-- `confirmation.value.err` is non-null for the submitted signature. -/
  execErr : Bool
  /-- actual fee payer of the confirmed payment transaction. -/
  actualPayer : String
  /-- actual asset the confirmed payment transaction moved. -/
  actualAsset : String
  /-- actual amount the confirmed payment transaction moved. -/
  actualAmount : ℚ
  /-- `connection.getAccountInfo` rejects (part_001 adds the payee
  account-creation instruction only in that case: `getAccountInfo` returns
  `null`, without rejecting, for a missing account). -/
  getAccountInfoThrows : Bool

/-- One broadcast treasury-signed token transfer: who receives and how many
base units the transfer instruction carries. -/
structure Broadcast where
  recipient : String
  baseUnits : Int
deriving DecidableEq

/-! ## tokenService.js : accounts, transfers, balances -/

/-- tokenService.js `ensureTokenAccount`: parse the wallet and the mint,
return the associated token account if `getAccount` finds it, otherwise
create it in a treasury-funded, treasury-signed transaction.  Any failure is
rethrown as `Failed to ensure token account: ...`. -/
def ensureTokenAccount (cfg : TokenConfig) (env : LedgerEnv) (userWallet : String) :
    Except String String :=
  if env.addrValid userWallet = false then
    .error "Failed to ensure token account: Invalid public key input"
  else if env.addrValid cfg.cgtMint = false then
    .error "Failed to ensure token account: Invalid public key input"
  else
    let userTokenAccount := env.ata cfg.cgtMint userWallet
    if (env.accountAmount userTokenAccount).isSome then
      .ok userTokenAccount
    else if isValid64ByteSecretKey cfg.treasuryPrivateKey = false then
      .error "Failed to ensure token account: Invalid treasury private key"
    else if env.createAccountOk then
      .ok userTokenAccount
    else
      .error "Failed to ensure token account: send failed"

/-- Result object of `transferCgtTokens`. -/
structure CgtTransferResult where
  signature : String
  amount : ℚ
  recipient : String
deriving DecidableEq

/-- tokenService.js `transferCgtTokens`: refuse outside the presale window
(thrown before the `try`, so the message is not wrapped); then treasury
keypair, wallet and mint parsing, `ensureTokenAccount`, fresh
`getMint(...).decimals`, `tokenAmount = Math.floor(cgtAmount * 10 ** decimals)`,
and one treasury-signed transfer broadcast. -/
def transferCgtTokens (cfg : TokenConfig) (env : LedgerEnv) (now : Int)
    (userWallet : String) (cgtAmount : ℚ) :
    Except String CgtTransferResult × List Broadcast :=
  if isPresaleActive cfg now = false then
    (.error "Presale is not active", [])
  else if isValid64ByteSecretKey cfg.treasuryPrivateKey = false then
    (.error "Failed to transfer CGT tokens: Invalid treasury private key", [])
  else if env.addrValid userWallet = false then
    (.error "Failed to transfer CGT tokens: Invalid public key input", [])
  else if env.addrValid cfg.cgtMint = false then
    (.error "Failed to transfer CGT tokens: Invalid public key input", [])
  else
    match ensureTokenAccount cfg env userWallet with
    | .error e => (.error ("Failed to transfer CGT tokens: " ++ e), [])
    | .ok _ =>
      match env.mintDecimals with
      | none => (.error "Failed to transfer CGT tokens: getMint failed", [])
      | some decimals =>
        let tokenAmount : Int := ⌊cgtAmount * (10 : ℚ) ^ decimals⌋
        if env.sendOk then
          (.ok ⟨env.transferSig, cgtAmount, userWallet⟩,
            [⟨userWallet, tokenAmount⟩])
        else
          (.error "Failed to transfer CGT tokens: send failed", [])

/-- tokenService.js `getCgtBalance`: outer block parses the wallet and the
mint (failures rethrown); the inner block returns the scaled token amount
and turns any `getAccount`/`getMint` rejection into balance `0`. -/
def getCgtBalance (cfg : TokenConfig) (env : LedgerEnv) (walletAddress : String) :
    Except String ℚ :=
  if env.addrValid walletAddress = false then
    .error "Failed to get CGT balance: Invalid public key input"
  else if env.addrValid cfg.cgtMint = false then
    .error "Failed to get CGT balance: Invalid public key input"
  else
    match env.accountAmount (env.ata cfg.cgtMint walletAddress) with
    | none => .ok 0
    | some amt =>
      match env.mintDecimals with
      | none => .ok 0
      | some decimals => .ok ((amt : ℚ) / (10 : ℚ) ^ decimals)

/-! ## part_001 (payment service wired to the `/api/payment/*` routes) -/

/-- part_001 `validatePaymentAmount` — defined in the module, with per-asset
bounds from `PAYMENT_CONFIG`, but never called by `createPayment`. -/
def validatePaymentAmount (amount : ℚ) (tokenType : String) : Except String Unit :=
  if amount ≤ 0 then .error "Invalid payment amount"
  else
    match jsToUpperCase tokenType with
    | "SOL" =>
      if amount < 0.05 ∨ 1000 < amount then
        .error "SOL amount must be between 0.05 and 1000"
      else .ok ()
    | "USDT" =>
      if amount < 1 ∨ 50000 < amount then
        .error "USDT amount must be between 1 and 50000"
      else .ok ()
    | "USDC" =>
      if amount < 1 ∨ 50000 < amount then
        .error "USDC amount must be between 1 and 50000"
      else .ok ()
    | _ => .error "Invalid token type"

/-- part_001 `getTokenMint`. -/
def getTokenMint (tokenType : String) : Except String String :=
  match jsToUpperCase tokenType with
  | "USDT" => .ok USDT_MINT
  | "USDC" => .ok USDC_MINT
  | _ => .error "Invalid token type"

/-- One instruction of an unsigned payment transaction. -/
inductive PayInstr where
  | systemTransfer (fromWallet toWallet : String) (lamports : ℚ)
  | createAssociatedAccount (payer account owner mint : String)
  | splTransfer (source dest authority : String) (baseUnits : Int)
deriving DecidableEq

/-- Lamports per SOL.  part_001's `createSolPayment` uses the identifier
without importing it; its standard value is `10^9`. -/
def LAMPORTS_PER_SOL : ℚ := 1000000000

/-- part_001 `createSolPayment`: a single system transfer of
`amount * LAMPORTS_PER_SOL` lamports (no rounding applied here); the
connection is built from `RPC_ENDPOINTS[0]`, so the blockhash fetch fails
when endpoint 0 is unreachable. -/
def createSolPaymentTx (env : LedgerEnv) (fromWallet toWallet : String) (amount : ℚ) :
    Except String (List PayInstr) :=
  if env.endpointHealth.getD 0 false then
    .ok [.systemTransfer fromWallet toWallet (amount * LAMPORTS_PER_SOL)]
  else
    .error "connection failed"

/-- part_001 `createSplTokenPayment`: resolve both associated token
accounts; add the payee's account-creation instruction only when
`getAccountInfo` rejects; transfer `Math.floor(amount * 10 ** 6)` base units
(USDT and USDC both use 6 decimals); connection pinned to `RPC_ENDPOINTS[0]`. -/
def createSplTokenPaymentTx (env : LedgerEnv) (fromWallet toWallet : String)
    (amount : ℚ) (tokenType : String) : Except String (List PayInstr) :=
  match getTokenMint tokenType with
  | .error e => .error e
  | .ok tokenMint =>
    let fromTokenAccount := env.ata tokenMint fromWallet
    let toTokenAccount := env.ata tokenMint toWallet
    let createPart : List PayInstr :=
      if env.getAccountInfoThrows then
        [.createAssociatedAccount fromWallet toTokenAccount toWallet tokenMint]
      else []
    let tokenAmount : Int := ⌊amount * (10 : ℚ) ^ (6 : ℕ)⌋
    if env.endpointHealth.getD 0 false then
      .ok (createPart ++
        [.splTransfer fromTokenAccount toTokenAccount fromWallet tokenAmount])
    else
      .error "connection failed"

/-- Response body of `createPayment`. -/
structure CreatePaymentResult where
  transaction : List PayInstr
  cgtAmount : ℚ
  paymentAmount : ℚ
  paymentToken : String
deriving DecidableEq

/-- part_001 `createPayment`: presale gate, wallet and receiver parsing,
server-side reward computation, then the SOL or SPL builder.  Note that
`validatePaymentAmount` is never invoked on this path. -/
def createPayment (cfg : TokenConfig) (env : LedgerEnv) (now : Int)
    (wallet : String) (amount : ℚ) (tokenType : String) :
    Except String CreatePaymentResult :=
  if isPresaleActive cfg now = false then
    .error "Failed to create payment: Presale is not active"
  else if env.addrValid wallet = false then
    .error "Failed to create payment: Invalid public key input"
  else if env.addrValid cfg.paymentReceiver = false then
    .error "Failed to create payment: Invalid public key input"
  else
    match calculateCgtAmount amount tokenType with
    | .error e => .error ("Failed to create payment: " ++ e)
    | .ok cgtAmount =>
      match
        (if jsToUpperCase tokenType = "SOL" then
          createSolPaymentTx env wallet cfg.paymentReceiver amount
        else
          createSplTokenPaymentTx env wallet cfg.paymentReceiver amount tokenType) with
      | .error e => .error ("Failed to create payment: " ++ e)
      | .ok tx => .ok ⟨tx, cgtAmount, amount, tokenType⟩

/-- Response body of `verifyPayment` on success. -/
structure VerifyResult where
  success : Bool
  signature : String
  cgtAmount : ℚ
  recipient : String
deriving DecidableEq

/-- part_001 `verifyPayment`: await `confirmTransaction(signature)`; when it
resolves without `value.err`, recompute the reward with
`calculateCgtAmount` and invoke `transferCgtTokens`.  No record of the
signature is consulted or stored, and the confirmed transaction's contents
(`actualPayer`, `actualAsset`, `actualAmount`) are never read. -/
def verifyPayment (cfg : TokenConfig) (env : LedgerEnv) (now : Int)
    (signature wallet : String) (amount : ℚ) (tokenType : String) :
    Except String VerifyResult × List Broadcast :=
  if env.confirmThrows then
    (.error "Payment verification failed: confirmTransaction failed", [])
  else if env.execErr = false then
    match calculateCgtAmount amount tokenType with
    | .error e => (.error ("Payment verification failed: " ++ e), [])
    | .ok cgtAmount =>
      match transferCgtTokens cfg env now wallet cgtAmount with
      | (.ok transferResult, bs) =>
        (.ok ⟨true, transferResult.signature, cgtAmount, wallet⟩, bs)
      | (.error e, bs) => (.error ("Payment verification failed: " ++ e), bs)
  else
    (.error "Payment verification failed: Transaction verification failed", [])

/-- Two sequential `POST /api/payment/verify` requests with identical
arguments.  The server holds no per-signature state (part_001 stores no
verification record), so the second call runs against the same environment;
the result pairs both responses with the total number of treasury transfer
broadcasts across the two calls. -/
def verifyPaymentTwice (cfg : TokenConfig) (env : LedgerEnv) (now : Int)
    (signature wallet : String) (amount : ℚ) (tokenType : String) :
    (Except String VerifyResult × Except String VerifyResult) × Nat :=
  let r1 := verifyPayment cfg env now signature wallet amount tokenType
  let r2 := verifyPayment cfg env now signature wallet amount tokenType
  ((r1.1, r2.1), r1.2.length + r2.2.length)

/-! ## secure-api (SERVER_CONFIG, startup validation, direct transfer route) -/

/-- `SERVER_CONFIG` of the secure API: the four required values are read
from the environment (`none` models an unset or empty, i.e. falsy, value);
`CGT_DECIMALS` is the configured decimal constant. -/
structure ServerConfig where
  cgtMint : Option String
  treasuryPublicKey : Option String
  treasuryPrivateKey : Option String
  paymentReceiver : Option String
  cgtDecimals : Nat
  allowedRecipients : List String
deriving DecidableEq

/-- `SERVER_CONFIG.MIN_TRANSFER_AMOUNT`. -/
def MIN_TRANSFER_AMOUNT : ℚ := 1

/-- `SERVER_CONFIG.MAX_TRANSFER_AMOUNT`. -/
def MAX_TRANSFER_AMOUNT : ℚ := 1000000

/-- secure-api `validateServerConfig`: each required key in order must be
truthy, then the private key must be base-58 decodable — nothing further is
checked about the decoded bytes at startup. -/
def validateServerConfig (cfg : ServerConfig) : Except String Unit :=
  match cfg.cgtMint with
  | none => .error "Missing required server configuration: CGT_MINT"
  | some _ =>
    match cfg.treasuryPublicKey with
    | none => .error "Missing required server configuration: TREASURY_PUBLIC_KEY"
    | some _ =>
      match cfg.treasuryPrivateKey with
      | none => .error "Missing required server configuration: TREASURY_PRIVATE_KEY"
      | some k =>
        match cfg.paymentReceiver with
        | none => .error "Missing required server configuration: PAYMENT_RECEIVER"
        | some _ =>
          if bs58Decodable k then .ok ()
          else .error "Invalid treasury private key format"

/-- What the process does at startup. -/
inductive StartupOutcome where
  | exited (code : Nat)
  | listening
deriving DecidableEq

/-- The secure-api startup sequence: `validateServerConfig()` inside a
`try`; on failure `process.exit(1)`; only afterwards is `app.listen`
reached. -/
def startup (cfg : ServerConfig) : StartupOutcome :=
  match validateServerConfig cfg with
  | .error _ => .exited 1
  | .ok _ => .listening

/-- secure-api `getSecureConnection`: walk `RPC_ENDPOINTS` in order, probe
each with `getLatestBlockhash`, return the first endpoint that responds
(its index here), and throw `All RPC endpoints failed` when none does. -/
def getSecureConnection : List Bool → Except String Nat
  | [] => .error "All RPC endpoints failed"
  | h :: rest =>
    if h then .ok 0
    else
      match getSecureConnection rest with
      | .ok i => .ok (i + 1)
      | .error _ => .error "All RPC endpoints failed"

/-- An RPC call made by part_001 or the token service: the connection is
always `new Connection(RPC_ENDPOINTS[0])`, so the call succeeds exactly
when endpoint 0 is reachable — no other endpoint is ever tried. -/
def firstEndpointCall (healths : List Bool) : Except String Unit :=
  if healths.getD 0 false then .ok () else .error "fetch failed"

def optKeyValid : Option String → Bool
  | none => false
  | some k => isValid64ByteSecretKey k

def optAddrValid (env : LedgerEnv) : Option String → Bool
  | none => false
  | some a => env.addrValid a

/-- What `executeSecureCgtTransfer` resolves with: its `catch` converts any
exception into `{ success: false, error: 'Transfer execution failed' }`. -/
inductive SecureTransferOutcome where
  | success (signature : String) (amount : ℚ) (recipient : String)
  | failure
deriving DecidableEq

/-- secure-api `executeSecureCgtTransfer`: failover connection, treasury
keypair, recipient and mint parsing, **fresh** `getMint(...).decimals`,
optional recipient account creation, then one treasury-signed transfer of
`Math.floor(cgtAmount * 10 ** actualDecimals)` base units.
`SERVER_CONFIG.CGT_DECIMALS` is never consulted. -/
def executeSecureCgtTransfer (cfg : ServerConfig) (env : LedgerEnv)
    (recipientWallet : String) (cgtAmount : ℚ) :
    SecureTransferOutcome × List Broadcast :=
  match getSecureConnection env.endpointHealth with
  | .error _ => (.failure, [])
  | .ok _ =>
    if optKeyValid cfg.treasuryPrivateKey = false then (.failure, [])
    else if env.addrValid recipientWallet = false then (.failure, [])
    else if optAddrValid env cfg.cgtMint = false then (.failure, [])
    else
      match env.mintDecimals with
      | none => (.failure, [])
      | some actualDecimals =>
        let transferAmount : Int := ⌊cgtAmount * (10 : ℚ) ^ actualDecimals⌋
        if env.sendOk then
          (.success env.transferSig cgtAmount recipientWallet,
            [⟨recipientWallet, transferAmount⟩])
        else (.failure, [])

/-- Request body of `POST /api/transfer-cgt`; `none` models a missing or
falsy field (those fail the `!recipientWallet || !amount || !timestamp`
guard). -/
structure TransferCgtBody where
  recipientWallet : Option String
  amount : Option ℚ
  timestamp : Option Int

/-- Response of the `/api/transfer-cgt` handler. -/
inductive TransferCgtResponse where
  | clientError (status : Nat) (message : String)
  | handled (outcome : SecureTransferOutcome)
deriving DecidableEq

/-- secure-api `app.post('/api/transfer-cgt')`: presence check, address
check, amount bounds, the 5-minute freshness window
(`Math.abs(now - timestamp) > 300000` rejects with `Request expired`), the
optional allow-list, then `executeSecureCgtTransfer`.  There is no
presale-window check on this path. -/
def transferCgtHandler (cfg : ServerConfig) (env : LedgerEnv) (now : Int)
    (body : TransferCgtBody) : TransferCgtResponse × List Broadcast :=
  match body.recipientWallet, body.amount, body.timestamp with
  | some recipientWallet, some amount, some timestamp =>
    if env.addrValid recipientWallet = false then
      (.clientError 400 "Invalid wallet address", [])
    else if amount < MIN_TRANSFER_AMOUNT ∨ MAX_TRANSFER_AMOUNT < amount then
      (.clientError 400 "Invalid transfer amount", [])
    else if 300000 < (now - timestamp).natAbs then
      (.clientError 400 "Request expired", [])
    else if 0 < cfg.allowedRecipients.length ∧
        cfg.allowedRecipients.contains recipientWallet = false then
      (.clientError 403 "Recipient not authorized", [])
    else
      let r := executeSecureCgtTransfer cfg env recipientWallet amount
      (.handled r.1, r.2)
  | _, _, _ => (.clientError 400 "Missing required parameters", [])

/-- Response of `GET /api/balance/:wallet`. -/
inductive BalanceResponse where
  | ok (balance : ℚ)
  | err (status : Nat) (message : String)
deriving DecidableEq

/-- The `/api/balance/:wallet` route: requires a wallet path parameter,
returns `{ balance }` from `getCgtBalance`, and maps any thrown error to a
500 response. -/
def balanceHandler (cfg : TokenConfig) (env : LedgerEnv) (wallet : String) :
    BalanceResponse :=
  if wallet = "" then .err 400 "Wallet address is required"
  else
    match getCgtBalance cfg env wallet with
    | .ok b => .ok b
    | .error _ => .err 500 "Failed to get balance"

/-! ## Concrete instances used by witnesses and counterexamples -/

/-- 64 leading `'1'` characters decode, in base 58, to 64 zero bytes: a
structurally valid (64-byte) secret key. -/
def zeroSecretKey : String := String.mk (List.replicate 64 '1')

def demoTokenConfig : TokenConfig where
  cgtMint := "CgtMint"
  treasuryPrivateKey := zeroSecretKey
  presaleStart := 1750819200000
  presaleEnd := 1756166400000
  paymentReceiver := "Receiver"

def demoLedgerEnv : LedgerEnv where
  addrValid := fun _ => true
  ata := fun mint owner => owner ++ ":" ++ mint
  accountAmount := fun _ => some 0
  createAccountOk := true
  mintDecimals := some 9
  sendOk := true
  transferSig := "cgtTransferSig"
  endpointHealth := [true]
  confirmThrows := false
  execErr := false
  actualPayer := "payer"
  actualAsset := "SOL"
  actualAmount := 1/10
  getAccountInfoThrows := false

def demoNow : Int := 1750819200000

def demoServerConfig : ServerConfig where
  cgtMint := some "CgtMint"
  treasuryPublicKey := some "TreasuryPub"
  treasuryPrivateKey := some zeroSecretKey
  paymentReceiver := some "Receiver"
  cgtDecimals := 9
  allowedRecipients := []

example : isValid64ByteSecretKey zeroSecretKey = true := by decide

/-! ## C3 -/

/-- C3: a `POST /api/transfer-cgt` request with a well-formed recipient
address and an in-bounds amount whose timestamp is more than 5 minutes
(300000 ms) from `now` fails with HTTP 400 `Request expired` and executes
no treasury transfer. -/
theorem transfer_cgt_replay_expired (cfg : ServerConfig) (env : LedgerEnv)
    (now : Int) (w : String) (a : ℚ) (t : Int)
    (haddr : env.addrValid w = true)
    (hlo : MIN_TRANSFER_AMOUNT ≤ a) (hhi : a ≤ MAX_TRANSFER_AMOUNT)
    (hstale : 300000 < (now - t).natAbs) :
    transferCgtHandler cfg env now ⟨some w, some a, some t⟩
      = (.clientError 400 "Request expired", []) := by
  show (if env.addrValid w = false then _ else _) = _
  rw [if_neg (by simp [haddr]),
    if_neg (not_or.mpr ⟨not_lt.mpr hlo, not_lt.mpr hhi⟩),
    if_pos hstale]

/-- Witness for C3 at a concrete request. -/
theorem transfer_cgt_replay_expired_witness :
    transferCgtHandler demoServerConfig demoLedgerEnv 1000000
      ⟨some "wallet", some 5, some 400001⟩
      = (.clientError 400 "Request expired", []) :=
  transfer_cgt_replay_expired demoServerConfig demoLedgerEnv 1000000 "wallet" 5 400001
    rfl (by norm_num [MIN_TRANSFER_AMOUNT]) (by norm_num [MAX_TRANSFER_AMOUNT])
    (by decide)

/-! ## C9 -/

/-- C9: the disbursement function used by the verification path
(`transferCgtTokens`) fails with `Presale is not active` and broadcasts
nothing whenever `now` is outside the presale window, while the direct
`POST /api/transfer-cgt` path (which never consults the window) still
reaches the treasury transfer for the same `now`. -/
theorem presale_gate_asymmetry (tcfg : TokenConfig) (scfg : ServerConfig)
    (env : LedgerEnv) (now t : Int) (w : String) (a : ℚ)
    (hinact : isPresaleActive tcfg now = false)
    (haddr : env.addrValid w = true)
    (hlo : MIN_TRANSFER_AMOUNT ≤ a) (hhi : a ≤ MAX_TRANSFER_AMOUNT)
    (hfresh : (now - t).natAbs ≤ 300000)
    (hallow : scfg.allowedRecipients = [])
    (hex : (executeSecureCgtTransfer scfg env w a).2 ≠ []) :
    transferCgtTokens tcfg env now w a = (.error "Presale is not active", [])
    ∧ (transferCgtHandler scfg env now ⟨some w, some a, some t⟩).2 ≠ [] := by
  constructor
  · unfold transferCgtTokens
    rw [hinact]
    rfl
  · show ((if env.addrValid w = false then _ else _ :
      TransferCgtResponse × List Broadcast)).2 ≠ _
    rw [if_neg (by simp [haddr]),
      if_neg (not_or.mpr ⟨not_lt.mpr hlo, not_lt.mpr hhi⟩),
      if_neg (not_lt.mpr hfresh),
      if_neg (by simp [hallow])]
    exact hex

/-- Witness for C9 one millisecond after the presale window closes. -/
theorem presale_gate_asymmetry_witness :
    transferCgtTokens demoTokenConfig demoLedgerEnv 1756166400001 "wallet" 5
      = (.error "Presale is not active", [])
    ∧ (transferCgtHandler demoServerConfig demoLedgerEnv 1756166400001
        ⟨some "wallet", some 5, some 1756166400001⟩).2 ≠ [] :=
  presale_gate_asymmetry demoTokenConfig demoServerConfig demoLedgerEnv
    1756166400001 1756166400001 "wallet" 5
    (by decide) rfl (by norm_num [MIN_TRANSFER_AMOUNT]) (by norm_num [MAX_TRANSFER_AMOUNT])
    (by decide) rfl
    (by simp [show (executeSecureCgtTransfer demoServerConfig demoLedgerEnv "wallet" 5).2
          = [⟨"wallet", 5000000000⟩] from by with_unfolding_all rfl])

/-! ## C4 -/

/-- C4: every treasury transfer instruction carries
`Math.floor(rewardAmount * 10 ** d)` base units where `d` is the decimals
value freshly returned by `getMint`, on both the direct path
(`executeSecureCgtTransfer`) and the token-service path
(`transferCgtTokens`); the configured decimal constant plays no role. -/
theorem disburse_uses_onchain_mint_decimals (scfg : ServerConfig) (tcfg : TokenConfig)
    (env : LedgerEnv) (now : Int) (w : String) (R : ℚ) (d d2 : Nat)
    (hd : env.mintDecimals = some d) :
    (∀ b ∈ (executeSecureCgtTransfer scfg env w R).2,
        b.baseUnits = ⌊R * (10 : ℚ) ^ d⌋)
    ∧ (∀ b ∈ (transferCgtTokens tcfg env now w R).2,
        b.baseUnits = ⌊R * (10 : ℚ) ^ d⌋)
    ∧ executeSecureCgtTransfer { scfg with cgtDecimals := d2 } env w R
        = executeSecureCgtTransfer scfg env w R := by
  refine ⟨?_, ?_, rfl⟩
  · unfold executeSecureCgtTransfer
    rw [hd]
    repeat' split
    all_goals simp_all
  · unfold transferCgtTokens
    rw [hd]
    repeat' split
    all_goals simp_all

/-- Witness for C4: with the mint reporting 6 decimals, disbursing 1.5
reward units transfers exactly 1500000 base units, not 1500000000. -/
theorem disburse_uses_onchain_mint_decimals_witness :
    ((executeSecureCgtTransfer demoServerConfig
        { demoLedgerEnv with mintDecimals := some 6 } "wallet" (3/2 : ℚ)).2
      = [{ recipient := "wallet", baseUnits := 1500000 }])
    ∧ (∀ b ∈ (executeSecureCgtTransfer demoServerConfig
        { demoLedgerEnv with mintDecimals := some 6 } "wallet" (3/2 : ℚ)).2,
        b.baseUnits = ⌊(3/2 : ℚ) * (10 : ℚ) ^ (6 : ℕ)⌋)
    ∧ ⌊(3/2 : ℚ) * (10 : ℚ) ^ (6 : ℕ)⌋ = 1500000
    ∧ (1500000 : ℤ) ≠ 1500000000 := by
  refine ⟨by with_unfolding_all rfl,
    (disburse_uses_onchain_mint_decimals demoServerConfig demoTokenConfig
      { demoLedgerEnv with mintDecimals := some 6 } 0 "wallet" (3/2) 6 0 rfl).1,
    by norm_num, by decide⟩

/-! ## Shape lemmas for the verification path -/

/-- A `transferCgtTokens` call that throws broadcasts nothing. -/
theorem transferCgtTokens_error_bs (cfg : TokenConfig) (env : LedgerEnv) (now : Int)
    (w : String) (a : ℚ) (e : String) (bs : List Broadcast)
    (h : transferCgtTokens cfg env now w a = (.error e, bs)) : bs = [] := by
  revert h
  unfold transferCgtTokens
  repeat' split
  all_goals intro h
  all_goals simp only [Prod.mk.injEq] at h
  all_goals simp_all

/-- A successful `transferCgtTokens` call broadcasts exactly one treasury
transfer, of `Math.floor(a * 10 ** d)` base units for the fresh mint
decimals `d`, to the requested wallet. -/
theorem transferCgtTokens_ok_bs (cfg : TokenConfig) (env : LedgerEnv) (now : Int)
    (w : String) (a : ℚ) (r : CgtTransferResult) (bs : List Broadcast)
    (h : transferCgtTokens cfg env now w a = (.ok r, bs)) :
    r = ⟨env.transferSig, a, w⟩
    ∧ ∃ d, env.mintDecimals = some d ∧ bs = [⟨w, ⌊a * (10 : ℚ) ^ d⌋⟩] := by
  revert h
  unfold transferCgtTokens
  repeat' split
  all_goals intro h
  all_goals simp only [Prod.mk.injEq] at h
  all_goals simp_all

/-- A successful `verifyPayment` call returned the server-side recomputed
reward, landed exactly one treasury broadcast, and saw the signature
confirmed with no execution error. -/
theorem verifyPayment_ok_bs (cfg : TokenConfig) (env : LedgerEnv) (now : Int)
    (sig w : String) (a : ℚ) (t : String) (r : VerifyResult) (bs : List Broadcast)
    (h : verifyPayment cfg env now sig w a t = (.ok r, bs)) :
    calculateCgtAmount a t = .ok r.cgtAmount
    ∧ bs.length = 1
    ∧ r.recipient = w
    ∧ env.confirmThrows = false ∧ env.execErr = false := by
  revert h
  unfold verifyPayment
  repeat' split
  all_goals intro h
  all_goals simp only [Prod.mk.injEq] at h
  all_goals simp_all
  rename_i x1 cgtAmt x2 tr bs2 hcf hee hcalc htr
  obtain ⟨hr, hb⟩ := h
  subst hr
  obtain ⟨-, d, hd, hbs⟩ := transferCgtTokens_ok_bs cfg env now w cgtAmt tr bs htr
  exact ⟨rfl, by simp [hbs], rfl⟩

/-! ## C1 -/

/-- C1 (amended): two `verify` calls with the same signature and identical
arguments yield identical `{status, rewardAmount}` results, but the server
keeps no per-signature record — each successful call performs its own
treasury disbursement, so the pair of calls broadcasts two transfers, not
at most one. -/
theorem verify_twice_disburses_twice (cfg : TokenConfig) (env : LedgerEnv)
    (now : Int) (sig w : String) (a : ℚ) (t : String)
    (hok : (verifyPayment cfg env now sig w a t).1.isOk = true) :
    (verifyPaymentTwice cfg env now sig w a t).1.1
      = (verifyPaymentTwice cfg env now sig w a t).1.2
    ∧ (verifyPaymentTwice cfg env now sig w a t).2 = 2 := by
  refine ⟨rfl, ?_⟩
  cases hv : (verifyPayment cfg env now sig w a t).1 with
  | error e => rw [hv] at hok; exact absurd hok (by simp [Except.isOk, Except.toBool])
  | ok r =>
    have hpair : verifyPayment cfg env now sig w a t
        = (.ok r, (verifyPayment cfg env now sig w a t).2) := by
      rw [← hv]
    have hlen := (verifyPayment_ok_bs cfg env now sig w a t r _ hpair).2.1
    show (verifyPayment cfg env now sig w a t).2.length
      + (verifyPayment cfg env now sig w a t).2.length = 2
    rw [hlen]

/-- Counterexample to C1 as stated: at a concrete confirmed payment, the
two identical calls trigger two treasury disbursements, not at most one. -/
theorem verify_twice_at_most_one_cex :
    (verifyPaymentTwice demoTokenConfig demoLedgerEnv demoNow "paysig" "wallet"
        (1/10) "SOL").2 = 2
    ∧ ¬ (verifyPaymentTwice demoTokenConfig demoLedgerEnv demoNow "paysig" "wallet"
        (1/10) "SOL").2 ≤ 1 := by
  have h2 : (verifyPaymentTwice demoTokenConfig demoLedgerEnv demoNow "paysig" "wallet"
      (1/10) "SOL").2 = 2 := by with_unfolding_all rfl
  exact ⟨h2, by rw [h2]; decide⟩

/-- Witness for C1's amended theorem at a concrete confirmed payment. -/
theorem verify_twice_disburses_twice_witness :
    (verifyPayment demoTokenConfig demoLedgerEnv demoNow "paysig" "wallet"
        (1/10 : ℚ) "SOL").1.isOk = true
    ∧ (verifyPaymentTwice demoTokenConfig demoLedgerEnv demoNow "paysig" "wallet"
        (1/10) "SOL").1.1
      = (verifyPaymentTwice demoTokenConfig demoLedgerEnv demoNow "paysig" "wallet"
        (1/10) "SOL").1.2
    ∧ (verifyPaymentTwice demoTokenConfig demoLedgerEnv demoNow "paysig" "wallet"
        (1/10) "SOL").2 = 2 := by
  have hok : (verifyPayment demoTokenConfig demoLedgerEnv demoNow "paysig" "wallet"
      (1/10 : ℚ) "SOL").1.isOk = true := by with_unfolding_all rfl
  obtain ⟨h1, h2⟩ := verify_twice_disburses_twice demoTokenConfig demoLedgerEnv demoNow
    "paysig" "wallet" (1/10) "SOL" hok
  exact ⟨hok, h1, h2⟩

/-! ## C2 -/

/-- C2 (amended): a treasury transfer is invoked only if the ledger reports
the submitted signature confirmed with no execution error — but the actual
payer, asset and amount of the confirmed transaction are never compared
against the claimed values: the result is invariant under arbitrary changes
of the transaction's actual contents. -/
theorem verify_disburses_only_on_confirmation (cfg : TokenConfig) (env : LedgerEnv)
    (now : Int) (sig w : String) (a : ℚ) (t : String) :
    ((verifyPayment cfg env now sig w a t).2 ≠ [] →
        env.confirmThrows = false ∧ env.execErr = false)
    ∧ (∀ p s q, verifyPayment cfg
          { env with actualPayer := p, actualAsset := s, actualAmount := q }
          now sig w a t
        = verifyPayment cfg env now sig w a t) := by
  constructor
  · intro hbs
    unfold verifyPayment at hbs
    by_cases hc : env.confirmThrows
    · rw [if_pos hc] at hbs; simp at hbs
    · refine ⟨by simpa using hc, ?_⟩
      rw [if_neg hc] at hbs
      by_cases he : env.execErr = false
      · exact he
      · rw [if_neg he] at hbs; simp at hbs
  · intro p s q
    rfl

/-- Counterexample to C2 as stated: a confirmed transaction whose actual
payer, asset and amount all differ from the claimed ones still triggers the
treasury transfer (computed from the claimed values). -/
theorem verify_ignores_tx_contents_cex :
    (verifyPayment demoTokenConfig
        { demoLedgerEnv with
            actualPayer := "mallory", actualAsset := "USDT", actualAmount := 999 }
        demoNow "paysig" "wallet" (1/10) "SOL").2.length = 1
    ∧ ¬ (({ demoLedgerEnv with
            actualPayer := "mallory", actualAsset := "USDT", actualAmount := 999 }
          : LedgerEnv).actualPayer = "wallet"
        ∧ ({ demoLedgerEnv with
            actualPayer := "mallory", actualAsset := "USDT", actualAmount := 999 }
          : LedgerEnv).actualAsset = "SOL"
        ∧ ({ demoLedgerEnv with
            actualPayer := "mallory", actualAsset := "USDT", actualAmount := 999 }
          : LedgerEnv).actualAmount = (1/10 : ℚ)) := by
  constructor
  · with_unfolding_all rfl
  · intro hmatch
    exact absurd hmatch.1 (by decide)

/-! ## C5 -/

/-- C5: the reward is always the server-side product of the claimed amount
and the asset's hard-coded rate (`SOL ↦ 7500`, `USDT/USDC ↦ 50`); whatever
reward a successful verification reports (and disburses) equals
`calculateCgtAmount` of the claimed amount — the request carries no
client-supplied reward figure at all. -/
theorem reward_recomputed_from_rate_table (cfg : TokenConfig) (env : LedgerEnv)
    (now : Int) (sig w : String) (a : ℚ) (t : String) (r : VerifyResult)
    (hr : (verifyPayment cfg env now sig w a t).1 = .ok r) :
    calculateCgtAmount a t = .ok r.cgtAmount
    ∧ calculateCgtAmount a "SOL" = .ok (a * 7500)
    ∧ calculateCgtAmount a "USDT" = .ok (a * 50)
    ∧ calculateCgtAmount a "USDC" = .ok (a * 50) := by
  have hpair : verifyPayment cfg env now sig w a t
      = (.ok r, (verifyPayment cfg env now sig w a t).2) := by
    rw [← hr]
  exact ⟨(verifyPayment_ok_bs cfg env now sig w a t r _ hpair).1,
    by with_unfolding_all rfl, by with_unfolding_all rfl, by with_unfolding_all rfl⟩

/-- Witness for C5: 0.1 SOL verifies to reward 750 exactly. -/
theorem reward_recomputed_witness :
    (verifyPayment demoTokenConfig demoLedgerEnv demoNow "paysig" "wallet"
        (1/10 : ℚ) "SOL").1
      = .ok { success := true, signature := "cgtTransferSig", cgtAmount := 750,
              recipient := "wallet" }
    ∧ calculateCgtAmount (1/10 : ℚ) "SOL" = .ok 750
    ∧ (1/10 : ℚ) * 7500 = 750 := by
  have hr : (verifyPayment demoTokenConfig demoLedgerEnv demoNow "paysig" "wallet"
      (1/10 : ℚ) "SOL").1
      = .ok { success := true, signature := "cgtTransferSig", cgtAmount := 750,
              recipient := "wallet" } := by with_unfolding_all rfl
  refine ⟨hr, ?_, by norm_num⟩
  exact (reward_recomputed_from_rate_table demoTokenConfig demoLedgerEnv demoNow
    "paysig" "wallet" (1/10) "SOL" _ hr).1

/-! ## C6 -/

/-- C6: the `createPayment` builder behind `POST /api/payment/create`
performs no bounds check — an out-of-bounds amount (USDT 100000, above the
configured maximum 50000) still yields a transaction — even though the very
validator defined beside it, `validatePaymentAmount`, rejects that amount. -/
theorem create_payment_skips_bounds_validation :
    createPayment demoTokenConfig demoLedgerEnv demoNow "wallet" 100000 "USDT"
      = .ok { transaction := [.splTransfer
                "wallet:Es9vMFrzaCERmJfrF4H2FYD4KCoNkY11McCe8BenwNYB"
                "Receiver:Es9vMFrzaCERmJfrF4H2FYD4KCoNkY11McCe8BenwNYB"
                "wallet" 100000000000],
              cgtAmount := 5000000, paymentAmount := 100000,
              paymentToken := "USDT" }
    ∧ validatePaymentAmount 100000 "USDT"
      = .error "USDT amount must be between 1 and 50000"
    ∧ (50000 : ℚ) < 100000 := by
  refine ⟨by with_unfolding_all rfl, by with_unfolding_all rfl, by norm_num⟩

/-! ## C7 -/

/-- C7 (amended): startup binds the listener exactly when the four required
configuration values are present and the treasury private key is valid
base 58; a missing value or an undecodable key exits with code 1 before any
listener is bound — but base-58 validity is the only key check at startup,
so a key that decodes to the wrong number of bytes still starts the server. -/
theorem startup_listens_iff_required_and_base58 (cfg : ServerConfig) :
    (startup cfg = .listening ↔
      (cfg.cgtMint ≠ none ∧ cfg.treasuryPublicKey ≠ none
        ∧ cfg.paymentReceiver ≠ none
        ∧ ∃ k, cfg.treasuryPrivateKey = some k ∧ bs58Decodable k = true))
    ∧ (startup cfg = .listening ∨ startup cfg = .exited 1) := by
  obtain ⟨m, tp, tk, pr, dec, ar⟩ := cfg
  constructor
  · cases m with
    | none => simp [startup, validateServerConfig]
    | some m0 =>
      cases tp with
      | none => simp [startup, validateServerConfig]
      | some tp0 =>
        cases tk with
        | none => simp [startup, validateServerConfig]
        | some k =>
          cases pr with
          | none => simp [startup, validateServerConfig]
          | some pr0 =>
            by_cases hk : bs58Decodable k <;>
              simp [startup, validateServerConfig, hk]
  · unfold startup
    cases validateServerConfig ⟨m, tp, tk, pr, dec, ar⟩ <;> simp

/-- Counterexample to C7 as stated: `"abc"` is valid base 58 but decodes to
3 bytes, not a structurally valid 64-byte secret key — yet the process
starts and binds the listener. -/
theorem startup_accepts_short_base58_key_cex :
    startup { cgtMint := some "mint", treasuryPublicKey := some "pub",
              treasuryPrivateKey := some "abc", paymentReceiver := some "recv",
              cgtDecimals := 9, allowedRecipients := [] } = .listening
    ∧ isValid64ByteSecretKey "abc" = false
    ∧ bs58DecodedLength "abc" = some 3 := by
  exact ⟨by decide, by decide, by decide⟩

/-! ## C8 -/

/-- Any error `getSecureConnection` raises carries the single message the
source throws after exhausting the endpoint loop. -/
theorem getSecureConnection_error_msg (hs : List Bool) (e : String)
    (h : getSecureConnection hs = .error e) : e = "All RPC endpoints failed" := by
  induction hs with
  | nil =>
    simp only [getSecureConnection, Except.error.injEq] at h
    exact h.symm
  | cons b rest ih =>
    cases b with
    | true => simp [getSecureConnection] at h
    | false =>
      simp only [getSecureConnection, Bool.false_eq_true, if_false] at h
      cases hr : getSecureConnection rest with
      | ok i => rw [hr] at h; simp at h
      | error e2 =>
        rw [hr] at h
        simp at h
        exact h.symm

/-- `getSecureConnection` raises `All RPC endpoints failed` exactly when
every configured endpoint fails the liveness probe. -/
theorem getSecureConnection_error_iff (hs : List Bool) :
    getSecureConnection hs = .error "All RPC endpoints failed"
      ↔ ∀ b ∈ hs, b = false := by
  induction hs with
  | nil => simp [getSecureConnection]
  | cons h rest ih =>
    cases h with
    | true => simp [getSecureConnection]
    | false =>
      simp only [getSecureConnection, Bool.false_eq_true, if_false]
      cases hgt : getSecureConnection rest with
      | ok i =>
        rw [hgt] at ih
        simp_all
      | error e =>
        have he := getSecureConnection_error_msg rest e hgt
        subst he
        rw [hgt] at ih
        simp_all

/-- C8 (amended): only the direct disbursement path fails over: its
connection selection errs exactly when every endpoint is down and otherwise
picks the first healthy endpoint (so it succeeds via the second endpoint
when the first is down), while every other ledger operation is pinned to
endpoint 0 and succeeds exactly when endpoint 0 is reachable. -/
theorem endpoint_failover_semantics (hs rest : List Bool) :
    (getSecureConnection hs = .error "All RPC endpoints failed"
      ↔ ∀ b ∈ hs, b = false)
    ∧ getSecureConnection (false :: true :: rest) = .ok 1
    ∧ (firstEndpointCall hs = .ok () ↔ hs.getD 0 false = true) := by
  refine ⟨getSecureConnection_error_iff hs, rfl, ?_⟩
  unfold firstEndpointCall
  by_cases h0 : hs.getD 0 false <;> simp [h0]

/-- Counterexample to C8 as stated: with endpoint 0 down and endpoint 1 up,
the failover helper does reach endpoint 1, but the payment-service
operations (pinned to endpoint 0) fail although not all endpoints are
unreachable. -/
theorem failover_only_direct_path_cex :
    getSecureConnection [false, true] = .ok 1
    ∧ firstEndpointCall [false, true] = .error "fetch failed"
    ∧ ¬ (∀ b ∈ [false, true], b = false) :=
  ⟨rfl, rfl, by decide⟩

/-! ## C10 -/

/-- C10: for a syntactically valid wallet whose reward-token account is
absent (`getAccount` rejects), `getCgtBalance` returns 0 and the balance
route answers `{balance: 0}`; with a well-formed mint configured, a thrown
balance error implies the wallet address itself failed to parse. -/
theorem balance_zero_for_missing_account (cfg : TokenConfig) (env : LedgerEnv)
    (w : String)
    (haddr : env.addrValid w = true)
    (hmint : env.addrValid cfg.cgtMint = true)
    (hmissing : env.accountAmount (env.ata cfg.cgtMint w) = none)
    (hw : w ≠ "") :
    getCgtBalance cfg env w = .ok 0
    ∧ balanceHandler cfg env w = .ok 0
    ∧ (∀ w2 e, getCgtBalance cfg env w2 = .error e → env.addrValid w2 = false) := by
  have hbal : getCgtBalance cfg env w = .ok 0 := by
    unfold getCgtBalance
    rw [if_neg (by simp [haddr]), if_neg (by simp [hmint]), hmissing]
  refine ⟨hbal, ?_, ?_⟩
  · unfold balanceHandler
    rw [if_neg hw, hbal]
  · intro w2 e he
    by_cases h2 : env.addrValid w2 = true
    · exfalso
      unfold getCgtBalance at he
      rw [if_neg (by simp [h2]), if_neg (by simp [hmint])] at he
      split at he
      · exact absurd he (by simp)
      · split at he
        · exact absurd he (by simp)
        · exact absurd he (by simp)
    · simpa using h2

/-- Witness for C10 with every account lookup rejecting. -/
theorem balance_zero_for_missing_account_witness :
    getCgtBalance demoTokenConfig
      { demoLedgerEnv with accountAmount := fun _ => none } "wallet" = .ok 0
    ∧ balanceHandler demoTokenConfig
      { demoLedgerEnv with accountAmount := fun _ => none } "wallet" = .ok 0 := by
  have h := balance_zero_for_missing_account demoTokenConfig
    { demoLedgerEnv with accountAmount := fun _ => none } "wallet" rfl rfl rfl
    (by decide)
  exact ⟨h.1, h.2.1⟩
